import Mathlib

/-!
Verification of the rpc-performance-monitoring system: a shallow embedding of
the RPC client (`src/core/ipc_client.py`), the desync state machine
(`src/monitoring/sync_monitor.py`), the anomaly engine
(`src/monitoring/metrics_collector.py`) and the data models
(`src/storage/models.py`), together with theorems settling the specified
properties.

Modelling conventions: Python floats are embedded as rationals (`ℚ`), Python
ints as `Int`; dynamically typed Python values are embedded as the `PyVal` /
`PyData` inductives; a Python function that can raise to its caller returns
`Except String _`; a function that can return `None` returns `Option _`.
-/

/-- A scalar Python value as it appears in JSON-RPC payloads and model
dictionaries: a string, an int, a float (rational), a bool, or `None`. -/
inductive PyVal where
  | pstr (s : String)
  | pint (n : Int)
  | pnum (q : ℚ)
  | pbool (b : Bool)
  | pnone
deriving DecidableEq, Repr

/-- A Python value that may additionally be a flat string-keyed dictionary
(sufficient for the payload shapes the embedded code inspects). -/
inductive PyData where
  | val (v : PyVal)
  | dict (entries : List (String × PyVal))
deriving DecidableEq, Repr

/-- Python truthiness of a scalar value (`if x:`). -/
def PyVal.truthy : PyVal → Bool
  | .pstr s => s ≠ ""
  | .pint n => n ≠ 0
  | .pnum q => q ≠ 0
  | .pbool b => b
  | .pnone => false

/-- Python truthiness of a value or dictionary (`if x:`). -/
def PyData.truthy : PyData → Bool
  | .val v => v.truthy
  | .dict d => d ≠ []

/-- Value of one hexadecimal digit character. -/
def hexDigitVal (c : Char) : Nat :=
  if c.isDigit then c.toNat - 48
  else if 'a' ≤ c && c ≤ 'f' then c.toNat - 87
  else if 'A' ≤ c && c ≤ 'F' then c.toNat - 55
  else 0

/-- Whether a character is a hexadecimal digit. -/
def isHexDigitChar (c : Char) : Bool :=
  c.isDigit || ('a' ≤ c && c ≤ 'f') || ('A' ≤ c && c ≤ 'F')

/-- Model of Python `int(s, 16)`: optional surrounding whitespace, optional
sign, optional `0x`/`0X`, then a nonempty run of hex digits; `none` models
the `ValueError` raised on any other string. (Underscore digit separators,
which CPython also accepts, are not modelled; no caller passes them.) -/
def pyIntBase16 (s : String) : Option Int :=
  let cs := ((s.toList.dropWhile Char.isWhitespace).reverse.dropWhile
      Char.isWhitespace).reverse
  let (sign, cs₁) : Int × List Char :=
    match cs with
    | '-' :: rest => (-1, rest)
    | '+' :: rest => (1, rest)
    | _ => (1, cs)
  let cs₂ : List Char :=
    match cs₁ with
    | '0' :: 'x' :: rest => rest
    | '0' :: 'X' :: rest => rest
    | _ => cs₁
  if cs₂ ≠ [] && cs₂.all isHexDigitChar then
    some (sign * ((cs₂.foldl (fun acc c => acc * 16 + hexDigitVal c) 0 : Nat) : Int))
  else none

namespace IPCClientM

/-- `core/ipc_client.py` `IPCResponse` dataclass. In the source, `success`
and `data` have no default value while `error` and `method` default to
`None`; a construction that omits `data` therefore raises `TypeError`. -/
structure IPCResponse where
  success : Bool
  data : PyData
  error : Option String := none
  method : Option String := none
deriving DecidableEq, Repr

/-- The `TypeError` raised when `IPCResponse(...)` is called without the
required positional argument `data`. -/
def dataTypeError : String :=
  "TypeError: IPCResponse.__init__ missing 1 required positional argument: data"

/-- A call of the `IPCResponse` constructor where `data?` records whether the
`data` argument was passed (`some d`) or omitted (`none`); omission raises
`TypeError`, modelled as `Except.error`. -/
def mkIPCResponse (success : Bool) (data? : Option PyData)
    (error : Option String) (method : Option String) : Except String IPCResponse :=
  match data? with
  | none => .error dataTypeError
  | some d => .ok ⟨success, d, error, method⟩

/-- The outcome of the HTTP transport exchange performed by `_call_http`,
as seen from inside its `try` block. -/
inductive HttpOutcome where
  | okResult (result : PyData)
  | rpcError (message : Option String)
  | badStatus (code : Nat) (text : String)
  | timedOut
  | exn (message : String)
deriving DecidableEq, Repr

/-- The outcome of the socket exchange performed by `_call_ipc`, as seen
from inside its `try` block. -/
inductive IpcOutcome where
  | okResult (result : PyData)
  | rpcError (message : Option String)
  | socketMissing (path : String)
  | emptyResponse
  | badJson (message : String)
  | timedOut
  | exn (message : String)
deriving DecidableEq, Repr

/-- The `except` chain shared by `_call_http` and `_call_ipc`: a body that
raised is routed to a handler, but every handler itself constructs an
`IPCResponse` without the required `data` argument, so the handler raises
`TypeError` out of the call. -/
def handle_call_exceptions (body : Except String IPCResponse) (method : String) :
    Except String IPCResponse :=
  match body with
  | .ok r => .ok r
  | .error e => mkIPCResponse false none (some e) (some method)

/-- Body of `_call_http`: each failure branch constructs an `IPCResponse`
without `data` (raising `TypeError`); a raised transport/parse exception is
modelled as `Except.error` and routed to the handlers. -/
def call_http_body (o : HttpOutcome) (timeout : Int) (method : String) :
    Except String IPCResponse :=
  match o with
  | .okResult result => mkIPCResponse true (some result) none (some method)
  | .rpcError message =>
      mkIPCResponse false none (some (message.getD "Unknown RPC error")) (some method)
  | .badStatus code text =>
      mkIPCResponse false none (some ("HTTP " ++ toString code ++ ": " ++ text)) (some method)
  | .timedOut => .error ("HTTP request timeout after " ++ toString timeout ++ "s")
  | .exn message => .error ("HTTP request failed: " ++ message)

/-- `IPCClient._call_http`. -/
def call_http (o : HttpOutcome) (timeout : Int) (method : String) :
    Except String IPCResponse :=
  handle_call_exceptions (call_http_body o timeout method) method

/-- Body of `_call_ipc`: mirrors the source's branch order; an `error`
envelope without a `message` key raises `KeyError`; decode and timeout
failures raise and are routed to the handlers. -/
def call_ipc_body (o : IpcOutcome) (timeout : Int) (method : String) :
    Except String IPCResponse :=
  match o with
  | .okResult result => mkIPCResponse true (some result) none (some method)
  | .rpcError (some message) => mkIPCResponse false none (some message) (some method)
  | .rpcError none => .error "KeyError: message"
  | .socketMissing path =>
      mkIPCResponse false none (some ("IPC socket not found: " ++ path)) (some method)
  | .emptyResponse => mkIPCResponse false none (some "Empty response from node") (some method)
  | .badJson message => .error ("Invalid JSON response: " ++ message)
  | .timedOut => .error ("Request timeout after " ++ toString timeout ++ "s")
  | .exn message => .error ("IPC communication error: " ++ message)

/-- `IPCClient._call_ipc`. -/
def call_ipc (o : IpcOutcome) (timeout : Int) (method : String) :
    Except String IPCResponse :=
  handle_call_exceptions (call_ipc_body o timeout method) method

/-- The transport exchange a `call_method` invocation performs: the HTTP path
when `_use_http` was fixed at construction, otherwise the socket path. -/
inductive TransportOutcome where
  | http (o : HttpOutcome)
  | ipc (o : IpcOutcome)
deriving DecidableEq, Repr

/-- Whether the transport exchange produced a JSON-RPC success envelope. -/
def TransportOutcome.isOk : TransportOutcome → Bool
  | .http (.okResult _) => true
  | .ipc (.okResult _) => true
  | _ => false

/-- `IPCClient.call_method`: dispatches to `_call_http` or `_call_ipc` and
wraps them in `try/except Exception`; the handler again constructs an
`IPCResponse` without `data`, so an inner exception escapes as `TypeError`. -/
def call_method (t : TransportOutcome) (timeout : Int) (method : String) :
    Except String IPCResponse :=
  let inner :=
    match t with
    | .http o => call_http o timeout method
    | .ipc o => call_ipc o timeout method
  match inner with
  | .ok r => .ok r
  | .error e => mkIPCResponse false none (some e) (some method)

/-- The `_hex_to_int` helper of the `SyncStatus` class nested inside
`IPCClient.get_sync_status`: a string starting with `0x` is parsed base 16
(`ValueError` gives 0), an int (including a bool, an int subclass in Python)
is returned as-is, everything else gives 0. -/
def hex_to_int : PyVal → Int
  | .pstr s =>
      match s.toList with
      | '0' :: 'x' :: _ => (pyIntBase16 s).getD 0
      | _ => 0
  | .pint n => n
  | .pbool b => if b then 1 else 0
  | _ => 0

/-- `_hex_to_int` applied to a full response payload: a dictionary is neither
a string nor an int, so it yields 0. -/
def hex_to_int_data : PyData → Int
  | .val v => hex_to_int v
  | .dict _ => 0

/-- The `SyncStatus` class defined inside `IPCClient.get_sync_status`
(distinct from `storage/models.py` `SyncStatus`). -/
structure IPCSyncStatus where
  is_syncing : Bool
  current_block : Int
  highest_block : Int
deriving DecidableEq, Repr

/-- `IPCClient.get_sync_status`, as a function of the two underlying
responses: returns `None` when either response is unsuccessful; when the
syncing payload is the literal `False` both heights come from the block
response; when it is a dictionary the nested fields default to 0; any other
payload shape raises `AttributeError` at `sync_data.get`. -/
def get_sync_status (syncing_response block_response : IPCResponse) :
    Except String (Option IPCSyncStatus) :=
  if !syncing_response.success then .ok none
  else if !block_response.success then .ok none
  else
    match syncing_response.data with
    | .val (.pbool false) =>
        .ok (some ⟨false, hex_to_int_data block_response.data,
                   hex_to_int_data block_response.data⟩)
    | .dict sync_data =>
        .ok (some ⟨true,
              hex_to_int ((sync_data.lookup "currentBlock").getD (.pint 0)),
              hex_to_int ((sync_data.lookup "highestBlock").getD (.pint 0))⟩)
    | _ => .error "AttributeError"

/-- `IPCClient.get_latest_block`, as a function of the block-number response:
if the response is successful and its data truthy, `int(data, 16)` is
attempted and `ValueError`/`TypeError` is converted to 0; every other case
returns 0. -/
def get_latest_block (response : IPCResponse) : Int :=
  if response.success && response.data.truthy then
    match response.data with
    | .val (.pstr s) => (pyIntBase16 s).getD 0
    | _ => 0
  else 0

end IPCClientM

namespace Models

/-- `storage/models.py` `SyncStatus`: node synchronization status. The
`synced_*` detail fields of the source dataclass are optional ints used by no
method or claim and are omitted. -/
structure SyncStatus where
  is_syncing : Bool
  current_block : Int
  highest_block : Int
  starting_block : Option Int := none
deriving DecidableEq, Repr

/-- `SyncStatus.blocks_behind`: `max(0, highest_block - current_block)`. -/
def SyncStatus.blocks_behind (st : SyncStatus) : Int :=
  max 0 (st.highest_block - st.current_block)

/-- `storage/models.py` `DesyncEvent`: the unit of incident tracking. -/
structure DesyncEvent where
  event_id : String
  detected_at : ℚ
  local_block : Int
  network_block : Int
  blocks_behind : Int
  peer_count : Int
  estimated_start_time : Option ℚ := none
  recovered_at : Option ℚ := none
  recovery_duration : Option ℚ := none
  severity : String := "medium"
  context_data : List (String × PyVal) := []
deriving DecidableEq, Repr

/-- `DesyncEvent.duration`: the source guard `if self.recovered_at:` is a
truthiness test, so a recovery timestamp of exactly 0.0 also yields `None`. -/
def DesyncEvent.duration (e : DesyncEvent) : Option ℚ :=
  match e.recovered_at with
  | some t => if t = 0 then none else some (t - e.detected_at)
  | none => none

/-- `DesyncEvent.is_active`: `recovered_at is None`. -/
def DesyncEvent.is_active (e : DesyncEvent) : Bool :=
  e.recovered_at.isNone

/-- Dictionary encoding of an optional float field: `None` or the number. -/
def encodeFloat? : Option ℚ → PyData
  | none => .val .pnone
  | some q => .val (.pnum q)

/-- `DesyncEvent.to_dict`, with the source's key order: the ten stored
fields plus the two computed entries `duration` and `is_active`, then
`context_data`. -/
def DesyncEvent.to_dict (e : DesyncEvent) : List (String × PyData) :=
  [("event_id", .val (.pstr e.event_id)),
   ("detected_at", .val (.pnum e.detected_at)),
   ("local_block", .val (.pint e.local_block)),
   ("network_block", .val (.pint e.network_block)),
   ("blocks_behind", .val (.pint e.blocks_behind)),
   ("peer_count", .val (.pint e.peer_count)),
   ("estimated_start_time", encodeFloat? e.estimated_start_time),
   ("recovered_at", encodeFloat? e.recovered_at),
   ("recovery_duration", encodeFloat? e.recovery_duration),
   ("severity", .val (.pstr e.severity)),
   ("duration", encodeFloat? e.duration),
   ("is_active", .val (.pbool e.is_active)),
   ("context_data", .dict e.context_data)]

/-- Read a string-typed entry of a decoded dictionary. -/
def decodeStr : Option PyData → Option String
  | some (.val (.pstr s)) => some s
  | _ => none

/-- Read a float-typed entry of a decoded dictionary. -/
def decodeFloat : Option PyData → Option ℚ
  | some (.val (.pnum q)) => some q
  | _ => none

/-- Read an int-typed entry of a decoded dictionary. -/
def decodeInt : Option PyData → Option Int
  | some (.val (.pint n)) => some n
  | _ => none

/-- Read an optional-float-typed entry of a decoded dictionary. -/
def decodeFloat? : Option PyData → Option (Option ℚ)
  | some (.val (.pnum q)) => some (some q)
  | some (.val .pnone) => some none
  | _ => none

/-- Read a dictionary-typed entry of a decoded dictionary. -/
def decodeDict : Option PyData → Option (List (String × PyVal))
  | some (.dict d) => some d
  | _ => none

/-- `DesyncEvent.from_dict`: copy the dictionary, pop exactly the two
computed keys `duration` and `is_active`, then call the constructor with the
remaining entries as keyword arguments. `cls(**data)` requires the remaining
keys to be exactly the eleven dataclass fields (a missing or extra key
raises `TypeError`, modelled as `none`); Python performs no runtime type
check, so the dynamic values are read at the fields' declared types. -/
def DesyncEvent.from_dict (data : List (String × PyData)) : Option DesyncEvent :=
  let d := data.filter (fun kv => !(kv.1 == "duration") && !(kv.1 == "is_active"))
  match decodeStr (d.lookup "event_id"), decodeFloat (d.lookup "detected_at"),
        decodeInt (d.lookup "local_block"), decodeInt (d.lookup "network_block"),
        decodeInt (d.lookup "blocks_behind"), decodeInt (d.lookup "peer_count"),
        decodeFloat? (d.lookup "estimated_start_time"),
        decodeFloat? (d.lookup "recovered_at"),
        decodeFloat? (d.lookup "recovery_duration"),
        decodeStr (d.lookup "severity"), decodeDict (d.lookup "context_data") with
  | some event_id, some detected_at, some local_block, some network_block,
    some blocks_behind, some peer_count, some est, some recov, some dur,
    some severity, some context_data =>
      if d.length = 11 then
        some ⟨event_id, detected_at, local_block, network_block, blocks_behind,
              peer_count, est, recov, dur, severity, context_data⟩
      else none
  | _, _, _, _, _, _, _, _, _, _, _ => none

end Models

namespace SyncMonitorM

/-- `sync_monitor.py` `SyncMonitor._calculate_desync_severity`. -/
def calculate_desync_severity (blocks_behind : Int) : String :=
  if blocks_behind ≥ 1000 then "critical"
  else if blocks_behind ≥ 100 then "high"
  else if blocks_behind ≥ 10 then "medium"
  else "low"

/-- Rank of a severity string under the ordering low < medium < high <
critical used to compare severities. -/
def severity_rank : String → Nat
  | "medium" => 1
  | "high" => 2
  | "critical" => 3
  | _ => 0

/-- The outcome of the consensus-endpoint HTTP exchange performed by
`_get_consensus_block_height`, as seen from inside its `try` block. -/
inductive ConsensusFetch where
  | noUrl
  | badStatus (code : Nat)
  | noResult
  | okResult (result : PyVal)
  | exn (message : String)
deriving DecidableEq, Repr

/-- `SyncMonitor._get_consensus_block_height`: returns the parsed height
only for a 200 response whose body has a `result` key holding a string that
`int(_, 16)` accepts; every failure — no configured URL, bad status, missing
key, unparsable or non-string value (`ValueError`/`TypeError` caught by the
blanket handler), or any raised exception — returns `None`. -/
def get_consensus_block_height : ConsensusFetch → Option Int
  | .noUrl => none
  | .badStatus _ => none
  | .noResult => none
  | .okResult (.pstr s) => pyIntBase16 s
  | .okResult _ => none
  | .exn _ => none

/-- The desync-tracking state of a `SyncMonitor`: the `current_desync` slot
and `monitoring_state.active_desyncs`. In Python both hold references to the
same `DesyncEvent` object while an incident is active. -/
structure MonitorState where
  current_desync : Option Models.DesyncEvent
  active_desyncs : List Models.DesyncEvent
deriving DecidableEq, Repr

/-- The state at construction: no active incident, empty active list. -/
def initial_state : MonitorState := ⟨none, []⟩

/-- The external readings one `_check_for_desync` cycle consumes: the
consensus fetch outcome, the local node's current block, the wall-clock
time of the cycle, and the peer count reading taken at detection. -/
structure CycleInput where
  fetch : ConsensusFetch
  current_block : Int
  time : ℚ
  peer_count : Int
deriving DecidableEq, Repr

/-- What a cycle persisted and emitted: nothing, a newly created desync
event (stored and sent to the desync callbacks), an in-place update of the
existing event (nothing stored or emitted), or a sealed event on recovery
(stored and sent to the recovery callbacks). -/
inductive StepOutput where
  | noOp
  | detected (e : Models.DesyncEvent)
  | updated
  | recovered (e : Models.DesyncEvent)
deriving DecidableEq, Repr

/-- `SyncMonitor._handle_desync_detection`: build a new `DesyncEvent` with a
time-derived id, append it to the active list, store and emit it. -/
def handle_desync_detection (st : MonitorState) (inp : CycleInput)
    (consensus_block blocks_behind : Int) : MonitorState × StepOutput :=
  let e : Models.DesyncEvent :=
    { event_id := "desync_" ++ toString inp.time.floor
      detected_at := inp.time
      local_block := inp.current_block
      network_block := consensus_block
      blocks_behind := blocks_behind
      peer_count := inp.peer_count
      severity := calculate_desync_severity blocks_behind }
  ({ current_desync := some e, active_desyncs := st.active_desyncs ++ [e] },
   .detected e)

/-- `SyncMonitor._handle_desync_recovery`: seal the active event (recovery
timestamp and duration), store and emit it, remove it from the active list,
clear the slot. The Python mutation acts on the object aliased into the
active list, modelled by mapping the field update over equal entries. -/
def handle_desync_recovery (st : MonitorState) (inp : CycleInput) :
    MonitorState × StepOutput :=
  match st.current_desync with
  | none => (st, .noOp)
  | some e =>
    let e' := { e with recovered_at := some inp.time
                       recovery_duration := some (inp.time - e.detected_at) }
    ({ current_desync := none
       active_desyncs :=
         (st.active_desyncs.map (fun x => if x = e then e' else x)).erase e' },
     .recovered e')

/-- `SyncMonitor._check_for_desync`: a failed consensus fetch aborts the
cycle with no state change; otherwise `blocks_behind = consensus_block -
current_block` is compared with the threshold to create, update in place
(again through the alias shared with the active list), or recover. -/
def check_for_desync (desync_threshold : Int) (st : MonitorState)
    (inp : CycleInput) : MonitorState × StepOutput :=
  match get_consensus_block_height inp.fetch with
  | none => (st, .noOp)
  | some consensus_block =>
    let blocks_behind := consensus_block - inp.current_block
    if blocks_behind ≥ desync_threshold then
      match st.current_desync with
      | none => handle_desync_detection st inp consensus_block blocks_behind
      | some e =>
        let e' := { e with blocks_behind := blocks_behind
                           network_block := consensus_block
                           local_block := inp.current_block }
        ({ current_desync := some e'
           active_desyncs := st.active_desyncs.map (fun x => if x = e then e' else x) },
         .updated)
    else
      match st.current_desync with
      | none => (st, .noOp)
      | some _ => handle_desync_recovery st inp

/-- A sequence of poll cycles: fold `_check_for_desync` over the inputs,
collecting what each cycle persisted and emitted. -/
def run_monitor (desync_threshold : Int) (st : MonitorState) :
    List CycleInput → MonitorState × List StepOutput
  | [] => (st, [])
  | inp :: rest =>
    let step := check_for_desync desync_threshold st inp
    let next := run_monitor desync_threshold step.1 rest
    (next.1, step.2 :: next.2)

/-- The state invariant: the active list is empty exactly when no incident
is tracked, and otherwise holds exactly the tracked event, which is not yet
recovered. -/
def StateInv (st : MonitorState) : Prop :=
  (∀ e, st.current_desync = some e →
      st.active_desyncs = [e] ∧ e.recovered_at = none)
  ∧ (st.current_desync = none → st.active_desyncs = [])

end SyncMonitorM

namespace MetricsCollectorM

/-- One entry of `MetricsCollector.metric_baselines`: the statistics
dictionary written by `_update_baselines`. -/
structure MetricBaseline where
  mean : ℚ
  std : ℚ
  min : ℚ
  max : ℚ
  sample_count : Nat
  last_updated : ℚ
deriving DecidableEq, Repr

/-- A metric sample as consumed by `_detect_anomalies`: a name and a numeric
value (the label set is carried only into the logging context and is
omitted). -/
structure MetricSample where
  name : String
  value : ℚ
deriving DecidableEq, Repr

/-- The `expected_range` dictionary attached to a `MetricAnomaly`. -/
structure ExpectedRange where
  mean : ℚ
  std : ℚ
  min : ℚ
  max : ℚ
deriving DecidableEq, Repr

/-- `storage/models.py` `MetricAnomaly`; the human-readable `description`
string and the logging `context` dictionary are omitted (string formatting
over the fields below). -/
structure MetricAnomaly where
  metric_name : String
  detected_at : ℚ
  anomaly_type : String
  severity : String
  current_value : ℚ
  expected_range : ExpectedRange
  deviation_score : ℚ
deriving DecidableEq, Repr

/-- `MetricsCollector._create_anomaly`. -/
def create_anomaly (sample : MetricSample) (baseline : MetricBaseline)
    (deviation : ℚ) (timestamp : ℚ) : MetricAnomaly :=
  let anomaly_type := if baseline.mean < sample.value then "spike" else "drop"
  let severity :=
    if deviation > 5 then "critical"
    else if deviation > 7/2 then "high"
    else if deviation > 5/2 then "medium"
    else "low"
  { metric_name := sample.name
    detected_at := timestamp
    anomaly_type := anomaly_type
    severity := severity
    current_value := sample.value
    expected_range :=
      ⟨baseline.mean, baseline.std, baseline.mean - baseline.std,
       baseline.mean + baseline.std⟩
    deviation_score := deviation }

/-- The deviation score `abs(value - mean) / std` computed by
`_detect_anomalies`. -/
def deviation_of (baseline : MetricBaseline) (value : ℚ) : ℚ :=
  |value - baseline.mean| / baseline.std

/-- The per-sample body of `MetricsCollector._detect_anomalies`: skip when
the metric has no baseline, fewer than 10 baseline samples, or a baseline
std of exactly 0; otherwise emit an anomaly iff the deviation score exceeds
the configured threshold. -/
def detect_anomaly_sample (baseline? : Option MetricBaseline)
    (anomaly_threshold_std : ℚ) (sample : MetricSample) (current_time : ℚ) :
    Option MetricAnomaly :=
  match baseline? with
  | none => none
  | some baseline =>
    if baseline.sample_count < 10 then none
    else if baseline.std = 0 then none
    else
      let deviation := |sample.value - baseline.mean| / baseline.std
      if deviation > anomaly_threshold_std then
        some (create_anomaly sample baseline deviation current_time)
      else none

end MetricsCollectorM

theorem severity_rank_calculate (n : Int) :
    SyncMonitorM.severity_rank (SyncMonitorM.calculate_desync_severity n) =
      if n ≥ 1000 then 3 else if n ≥ 100 then 2 else if n ≥ 10 then 1 else 0 := by
  unfold SyncMonitorM.calculate_desync_severity
  split_ifs <;> rfl

/-- C5: for every SyncStatus, if highest_block ≥ current_block then
blocks_behind = highest_block - current_block; if highest_block <
current_block then blocks_behind = 0; and blocks_behind is never negative. -/
theorem C5_blocks_behind (st : Models.SyncStatus) :
    (st.current_block ≤ st.highest_block →
      st.blocks_behind = st.highest_block - st.current_block)
    ∧ (st.highest_block < st.current_block → st.blocks_behind = 0)
    ∧ 0 ≤ st.blocks_behind := by
  unfold Models.SyncStatus.blocks_behind
  refine ⟨fun h => ?_, fun h => ?_, le_max_left _ _⟩
  · omega
  · omega

theorem C5_blocks_behind_witness :
    (Models.SyncStatus.mk false 5 9 none).blocks_behind = 4
    ∧ (Models.SyncStatus.mk false 9 5 none).blocks_behind = 0 :=
  ⟨(C5_blocks_behind (Models.SyncStatus.mk false 5 9 none)).1 (by decide),
   (C5_blocks_behind (Models.SyncStatus.mk false 9 5 none)).2.1 (by decide)⟩

/-- C8: desync severity bucketing is monotonic in blocks-behind under
low < medium < high < critical, with buckets ≥1000 critical, ≥100 high,
≥10 medium, else low. -/
theorem C8_severity_monotone :
    (∀ a b : Int, a ≤ b →
      SyncMonitorM.severity_rank (SyncMonitorM.calculate_desync_severity a) ≤
        SyncMonitorM.severity_rank (SyncMonitorM.calculate_desync_severity b))
    ∧ (∀ n : Int,
        (1000 ≤ n → SyncMonitorM.calculate_desync_severity n = "critical")
        ∧ (100 ≤ n ∧ n < 1000 → SyncMonitorM.calculate_desync_severity n = "high")
        ∧ (10 ≤ n ∧ n < 100 → SyncMonitorM.calculate_desync_severity n = "medium")
        ∧ (n < 10 → SyncMonitorM.calculate_desync_severity n = "low")) := by
  constructor
  · intro a b hab
    rw [severity_rank_calculate, severity_rank_calculate]
    split_ifs <;> omega
  · intro n
    unfold SyncMonitorM.calculate_desync_severity
    refine ⟨fun h => ?_, fun h => ?_, fun h => ?_, fun h => ?_⟩ <;>
      · split_ifs <;> first | rfl | omega

/-- C1: the claim says `call_method` never raises past the client boundary
and converts every transport or parsing failure into a `success=false`
`IPCResponse` carrying a message and the method name. The code contradicts
this: `IPCResponse` requires the positional field `data`, and every failure
branch (and every `except` handler) constructs `IPCResponse` without it, so
each failure raises `TypeError` out of `call_method`. This theorem evaluates
the model at concrete failing transports — HTTP 500, HTTP timeout, a JSON-RPC
error envelope, an empty socket response, malformed JSON — showing the
`TypeError` escape, while the success paths of both transports do return a
well-formed `IPCResponse`. -/
theorem C1_call_method_type_error_escapes :
    IPCClientM.call_method (.http (.badStatus 500 "Internal Server Error")) 30 "eth_blockNumber"
      = .error IPCClientM.dataTypeError
    ∧ IPCClientM.call_method (.http .timedOut) 30 "eth_blockNumber"
      = .error IPCClientM.dataTypeError
    ∧ IPCClientM.call_method (.http (.rpcError (some "method not found"))) 30 "eth_syncing"
      = .error IPCClientM.dataTypeError
    ∧ IPCClientM.call_method (.ipc .emptyResponse) 30 "eth_blockNumber"
      = .error IPCClientM.dataTypeError
    ∧ IPCClientM.call_method (.ipc (.badJson "Expecting value")) 30 "eth_blockNumber"
      = .error IPCClientM.dataTypeError
    ∧ IPCClientM.call_method (.http (.okResult (.val (.pstr "0x10")))) 30 "eth_blockNumber"
      = .ok ⟨true, .val (.pstr "0x10"), none, some "eth_blockNumber"⟩
    ∧ IPCClientM.call_method (.ipc (.okResult (.val (.pstr "0x10")))) 30 "eth_blockNumber"
      = .ok ⟨true, .val (.pstr "0x10"), none, some "eth_blockNumber"⟩ :=
  ⟨rfl, rfl, rfl, rfl, rfl, rfl, rfl⟩

/-- C9 counterexample: the claim says the derived convenience operations
treat a non-numeric or missing value as a failure to retrieve the field,
propagating the failure rather than silently returning zero. But
`get_latest_block` on a successful response whose result string is not
numeric returns the integer 0, and on an unsuccessful response also returns
0 — there is no failure channel at all (its return type is int). -/
theorem C9_counterexample :
    pyIntBase16 "zz" = none
    ∧ IPCClientM.get_latest_block ⟨true, .val (.pstr "zz"), none, some "eth_blockNumber"⟩ = 0
    ∧ IPCClientM.get_latest_block
        ⟨false, .val .pnone, some "Request timeout after 30s", some "eth_blockNumber"⟩ = 0 :=
  ⟨rfl, rfl, rfl⟩

/-- C9 amended: `get_latest_block` interprets a hexadecimal string result as
an integer, but a failed call or a non-numeric, missing, or falsy value
yields the integer 0 (a silent zero default), not a propagated failure;
`get_sync_status` returns `None` when either underlying response is
unsuccessful, and its `_hex_to_int` helper defaults non-numeric or missing
values to 0. -/
theorem C9_amended_zero_defaults :
    (∀ (s : String) (v : Int), pyIntBase16 s = some v → s ≠ "" →
      IPCClientM.get_latest_block ⟨true, .val (.pstr s), none, some "eth_blockNumber"⟩ = v)
    ∧ (∀ (s : String) (m : Option String), pyIntBase16 s = none →
        IPCClientM.get_latest_block ⟨true, .val (.pstr s), none, m⟩ = 0)
    ∧ (∀ r : IPCClientM.IPCResponse, r.success = false →
        IPCClientM.get_latest_block r = 0)
    ∧ (∀ syncing_response block_response : IPCClientM.IPCResponse,
        syncing_response.success = false →
          IPCClientM.get_sync_status syncing_response block_response = .ok none)
    ∧ (∀ syncing_response block_response : IPCClientM.IPCResponse,
        block_response.success = false →
          IPCClientM.get_sync_status syncing_response block_response = .ok none)
    ∧ IPCClientM.hex_to_int (.pstr "0xzz") = 0
    ∧ IPCClientM.hex_to_int (.pstr "ff") = 0
    ∧ IPCClientM.hex_to_int .pnone = 0 := by
  refine ⟨?_, ?_, ?_, ?_, ?_, rfl, rfl, rfl⟩
  · intro s v h hs
    simp [IPCClientM.get_latest_block, PyData.truthy, PyVal.truthy, hs, h]
  · intro s m h
    by_cases hs : s = ""
    · subst hs
      simp [IPCClientM.get_latest_block, PyData.truthy, PyVal.truthy]
    · simp [IPCClientM.get_latest_block, PyData.truthy, PyVal.truthy, hs, h]
  · intro r h
    simp [IPCClientM.get_latest_block, h]
  · intro syncing_response block_response h
    simp [IPCClientM.get_sync_status, h]
  · intro syncing_response block_response h
    by_cases hs : syncing_response.success
    · simp [IPCClientM.get_sync_status, hs, h]
    · simp [IPCClientM.get_sync_status, hs]

theorem C9_amended_zero_defaults_witness :
    IPCClientM.get_latest_block
        ⟨true, .val (.pstr "0x14"), none, some "eth_blockNumber"⟩ = 20
    ∧ IPCClientM.get_latest_block
        ⟨true, .val (.pstr "nothex"), none, some "eth_blockNumber"⟩ = 0
    ∧ IPCClientM.get_latest_block
        ⟨false, .val .pnone, some "timeout", some "eth_blockNumber"⟩ = 0
    ∧ IPCClientM.get_sync_status
        ⟨false, .val .pnone, some "timeout", some "eth_syncing"⟩
        ⟨true, .val (.pstr "0x14"), none, some "eth_blockNumber"⟩ = .ok none
    ∧ IPCClientM.get_sync_status
        ⟨true, .val (.pbool false), none, some "eth_syncing"⟩
        ⟨false, .val .pnone, some "timeout", some "eth_blockNumber"⟩ = .ok none :=
  ⟨C9_amended_zero_defaults.1 "0x14" 20 rfl (by decide),
   C9_amended_zero_defaults.2.1 "nothex" (some "eth_blockNumber") rfl,
   C9_amended_zero_defaults.2.2.1 ⟨false, .val .pnone, some "timeout", some "eth_blockNumber"⟩ rfl,
   C9_amended_zero_defaults.2.2.2.1 _ _ rfl,
   C9_amended_zero_defaults.2.2.2.2.1 _ _ rfl⟩

theorem C8_severity_monotone_witness :
    SyncMonitorM.severity_rank (SyncMonitorM.calculate_desync_severity 5) ≤
      SyncMonitorM.severity_rank (SyncMonitorM.calculate_desync_severity 5000)
    ∧ SyncMonitorM.calculate_desync_severity 1000 = "critical"
    ∧ SyncMonitorM.calculate_desync_severity 500 = "high"
    ∧ SyncMonitorM.calculate_desync_severity 50 = "medium"
    ∧ SyncMonitorM.calculate_desync_severity 5 = "low" :=
  ⟨C8_severity_monotone.1 5 5000 (by decide),
   (C8_severity_monotone.2 1000).1 (by decide),
   (C8_severity_monotone.2 500).2.1 (by decide),
   (C8_severity_monotone.2 50).2.2.1 (by decide),
   (C8_severity_monotone.2 5).2.2.2 (by decide)⟩

/-- C2 counterexample: with baseline mean 100, std 10 and threshold 2.5σ, a
sample of 130 has deviation 3.0 and is flagged, but its severity is
"medium" (the `_create_anomaly` buckets are >5.0 critical, >3.5 high,
>2.5 medium), not "high" as the claim states. -/
theorem C2_counterexample :
    (MetricsCollectorM.detect_anomaly_sample
        (some ⟨100, 10, 80, 120, 20, 0⟩) (5/2) ⟨"cpu_usage", 130⟩ 0).map
        (fun a => a.severity) = some "medium"
    ∧ "medium" ≠ "high" := by
  refine ⟨?_, by decide⟩
  norm_num [MetricsCollectorM.detect_anomaly_sample, MetricsCollectorM.create_anomaly]

/-- C2 amended: with baseline mean 100, std 10 and threshold 2.5σ, a sample
of 100 yields deviation 0 and no anomaly; a sample of 130 yields deviation
3.0 and an anomaly of type spike with severity medium; a sample of 70 yields
deviation 3.0 and an anomaly of type drop (also severity medium). -/
theorem C2_amended_detection_example :
    MetricsCollectorM.deviation_of ⟨100, 10, 80, 120, 20, 0⟩ 100 = 0
    ∧ MetricsCollectorM.detect_anomaly_sample
        (some ⟨100, 10, 80, 120, 20, 0⟩) (5/2) ⟨"cpu_usage", 100⟩ 0 = none
    ∧ MetricsCollectorM.deviation_of ⟨100, 10, 80, 120, 20, 0⟩ 130 = 3
    ∧ MetricsCollectorM.detect_anomaly_sample
        (some ⟨100, 10, 80, 120, 20, 0⟩) (5/2) ⟨"cpu_usage", 130⟩ 0 =
        some ⟨"cpu_usage", 0, "spike", "medium", 130, ⟨100, 10, 90, 110⟩, 3⟩
    ∧ MetricsCollectorM.deviation_of ⟨100, 10, 80, 120, 20, 0⟩ 70 = 3
    ∧ MetricsCollectorM.detect_anomaly_sample
        (some ⟨100, 10, 80, 120, 20, 0⟩) (5/2) ⟨"cpu_usage", 70⟩ 0 =
        some ⟨"cpu_usage", 0, "drop", "medium", 70, ⟨100, 10, 90, 110⟩, 3⟩ := by
  refine ⟨?_, ?_, ?_, ?_, ?_, ?_⟩ <;>
    norm_num [MetricsCollectorM.detect_anomaly_sample, MetricsCollectorM.create_anomaly,
      MetricsCollectorM.deviation_of]

/-- C7: a sample whose baseline standard deviation is exactly 0 is skipped
before the deviation quotient is formed, so no anomaly is emitted regardless
of the sample's value and the division is never performed with a zero
divisor. -/
theorem C7_std_zero_skipped (baseline : MetricsCollectorM.MetricBaseline)
    (anomaly_threshold_std : ℚ) (sample : MetricsCollectorM.MetricSample) (t : ℚ)
    (h : baseline.std = 0) :
    MetricsCollectorM.detect_anomaly_sample (some baseline) anomaly_threshold_std
      sample t = none := by
  simp [MetricsCollectorM.detect_anomaly_sample, h]

theorem C7_std_zero_skipped_witness :
    MetricsCollectorM.detect_anomaly_sample
      (some ⟨100, 0, 100, 100, 50, 0⟩) (5/2) ⟨"cpu_usage", 1000000⟩ 0 = none :=
  C7_std_zero_skipped ⟨100, 0, 100, 100, 50, 0⟩ (5/2) ⟨"cpu_usage", 1000000⟩ 0 rfl

/-- C10: serialization followed by deserialization is the identity on
`DesyncEvent`: `to_dict` adds exactly the computed `duration` and
`is_active` entries, and `from_dict` removes exactly those two keys before
rebuilding the event field for field. -/
theorem C10_dict_round_trip (e : Models.DesyncEvent) :
    Models.DesyncEvent.from_dict e.to_dict = some e := by
  obtain ⟨eid, da, lb, nb, bb, pc, est, recov, dur, sev, cd⟩ := e
  cases est <;> cases recov <;> cases dur <;> rfl

/-- C6: in a poll cycle whose consensus fetch yields no height, the Sync
Monitor performs no state transition: the state (Synced/Desynced slot, the
active event and all its fields) is returned unchanged and nothing is
created, sealed, persisted, or emitted. -/
theorem C6_consensus_failure_no_transition (desync_threshold : Int)
    (st : SyncMonitorM.MonitorState) (inp : SyncMonitorM.CycleInput)
    (h : SyncMonitorM.get_consensus_block_height inp.fetch = none) :
    SyncMonitorM.check_for_desync desync_threshold st inp = (st, .noOp) := by
  unfold SyncMonitorM.check_for_desync
  rw [h]

theorem C6_consensus_failure_no_transition_witness :
    SyncMonitorM.get_consensus_block_height (.badStatus 502) = none
    ∧ SyncMonitorM.check_for_desync 3
        ⟨some ⟨"desync_100", 100, 10, 20, 10, 5, none, none, none, "medium", []⟩,
         [⟨"desync_100", 100, 10, 20, 10, 5, none, none, none, "medium", []⟩]⟩
        ⟨.badStatus 502, 12, 101, 5⟩ =
      (⟨some ⟨"desync_100", 100, 10, 20, 10, 5, none, none, none, "medium", []⟩,
        [⟨"desync_100", 100, 10, 20, 10, 5, none, none, none, "medium", []⟩]⟩,
       .noOp) :=
  ⟨rfl,
   C6_consensus_failure_no_transition 3
     ⟨some ⟨"desync_100", 100, 10, 20, 10, 5, none, none, none, "medium", []⟩,
      [⟨"desync_100", 100, 10, 20, 10, 5, none, none, none, "medium", []⟩]⟩
     ⟨.badStatus 502, 12, 101, 5⟩ rfl⟩

theorem check_detection_eq (thr : Int) (st : SyncMonitorM.MonitorState)
    (j : SyncMonitorM.CycleInput) (c : Int)
    (hcur : st.current_desync = none)
    (hc : SyncMonitorM.get_consensus_block_height j.fetch = some c)
    (hth : thr ≤ c - j.current_block) :
    SyncMonitorM.check_for_desync thr st j
      = SyncMonitorM.handle_desync_detection st j c (c - j.current_block) := by
  unfold SyncMonitorM.check_for_desync
  rw [hc]
  simp only [hcur, ge_iff_le, hth, if_true]

theorem check_update_eq (thr : Int) (st : SyncMonitorM.MonitorState)
    (e : Models.DesyncEvent) (j : SyncMonitorM.CycleInput) (c : Int)
    (hcur : st.current_desync = some e)
    (hc : SyncMonitorM.get_consensus_block_height j.fetch = some c)
    (hth : thr ≤ c - j.current_block) :
    SyncMonitorM.check_for_desync thr st j
      = ({ current_desync := some { e with blocks_behind := c - j.current_block
                                           network_block := c
                                           local_block := j.current_block }
           active_desyncs := st.active_desyncs.map
             (fun x => if x = e then { e with blocks_behind := c - j.current_block
                                              network_block := c
                                              local_block := j.current_block } else x) },
         .updated) := by
  unfold SyncMonitorM.check_for_desync
  rw [hc]
  simp only [hcur, ge_iff_le, hth, if_true]

theorem check_recovery_eq (thr : Int) (st : SyncMonitorM.MonitorState)
    (e : Models.DesyncEvent) (j : SyncMonitorM.CycleInput) (c : Int)
    (hcur : st.current_desync = some e)
    (hc : SyncMonitorM.get_consensus_block_height j.fetch = some c)
    (hth : ¬ thr ≤ c - j.current_block) :
    SyncMonitorM.check_for_desync thr st j
      = ({ current_desync := none
           active_desyncs :=
             (st.active_desyncs.map
               (fun x => if x = e then
                   { e with recovered_at := some j.time
                            recovery_duration := some (j.time - e.detected_at) }
                 else x)).erase
               { e with recovered_at := some j.time
                        recovery_duration := some (j.time - e.detected_at) } },
         .recovered { e with recovered_at := some j.time
                             recovery_duration := some (j.time - e.detected_at) }) := by
  unfold SyncMonitorM.check_for_desync SyncMonitorM.handle_desync_recovery
  rw [hc]
  simp only [hcur, ge_iff_le, hth, if_false]

theorem check_noop_eq (thr : Int) (st : SyncMonitorM.MonitorState)
    (j : SyncMonitorM.CycleInput) (c : Int)
    (hcur : st.current_desync = none)
    (hc : SyncMonitorM.get_consensus_block_height j.fetch = some c)
    (hth : ¬ thr ≤ c - j.current_block) :
    SyncMonitorM.check_for_desync thr st j = (st, .noOp) := by
  unfold SyncMonitorM.check_for_desync
  rw [hc]
  simp only [hcur, ge_iff_le, hth, if_false]

theorem check_step_inv (thr : Int) (st : SyncMonitorM.MonitorState)
    (inp : SyncMonitorM.CycleInput)
    (hinv : SyncMonitorM.StateInv st)
    (htime : ∀ e, st.current_desync = some e → e.detected_at ≤ inp.time) :
    SyncMonitorM.StateInv (SyncMonitorM.check_for_desync thr st inp).1
    ∧ (∀ e, (SyncMonitorM.check_for_desync thr st inp).1.current_desync = some e →
        e.detected_at ≤ inp.time)
    ∧ (∀ e', (SyncMonitorM.check_for_desync thr st inp).2
          = SyncMonitorM.StepOutput.recovered e' →
        e'.recovered_at = some inp.time
        ∧ e'.recovery_duration = some (inp.time - e'.detected_at)
        ∧ 0 ≤ inp.time - e'.detected_at) := by
  cases hc : SyncMonitorM.get_consensus_block_height inp.fetch with
  | none =>
    have heq : SyncMonitorM.check_for_desync thr st inp = (st, .noOp) := by
      unfold SyncMonitorM.check_for_desync
      rw [hc]
    rw [heq]
    exact ⟨hinv, htime, fun e' h => by cases h⟩
  | some c =>
    by_cases hth : thr ≤ c - inp.current_block
    · cases hcur : st.current_desync with
      | none =>
        rw [check_detection_eq thr st inp c hcur hc hth]
        have hact : st.active_desyncs = [] := hinv.2 hcur
        unfold SyncMonitorM.handle_desync_detection
        refine ⟨⟨?_, ?_⟩, ?_, ?_⟩
        · intro e he
          injection he with he
          subst he
          exact ⟨by rw [hact]; rfl, rfl⟩
        · intro h
          cases h
        · intro e he
          injection he with he
          subst he
          exact le_refl _
        · intro e' h
          cases h
      | some e =>
        rw [check_update_eq thr st e inp c hcur hc hth]
        obtain ⟨hact, hrec⟩ := hinv.1 e hcur
        refine ⟨⟨?_, ?_⟩, ?_, ?_⟩
        · intro e2 he2
          injection he2 with he2
          subst he2
          constructor
          · rw [hact]
            simp
          · exact hrec
        · intro h
          cases h
        · intro e2 he2
          injection he2 with he2
          subst he2
          exact htime e hcur
        · intro e' h
          cases h
    · cases hcur : st.current_desync with
      | none =>
        rw [check_noop_eq thr st inp c hcur hc hth]
        exact ⟨hinv, htime, fun e' h => by cases h⟩
      | some e =>
        rw [check_recovery_eq thr st e inp c hcur hc hth]
        obtain ⟨hact, hrec⟩ := hinv.1 e hcur
        refine ⟨⟨?_, ?_⟩, ?_, ?_⟩
        · intro e2 he2
          cases he2
        · intro _
          rw [hact]
          simp
        · intro e2 he2
          cases he2
        · intro e' h
          injection h with h
          subst h
          refine ⟨rfl, rfl, ?_⟩
          have := htime e hcur
          simp only
          linarith

theorem run_monitor_inv (thr : Int) (inputs : List SyncMonitorM.CycleInput) :
    ∀ (st : SyncMonitorM.MonitorState) (t0 : ℚ),
      SyncMonitorM.StateInv st →
      (∀ e, st.current_desync = some e → e.detected_at ≤ t0) →
      List.Chain (· ≤ ·) t0 (inputs.map SyncMonitorM.CycleInput.time) →
      SyncMonitorM.StateInv (SyncMonitorM.run_monitor thr st inputs).1
      ∧ (∀ e', SyncMonitorM.StepOutput.recovered e'
            ∈ (SyncMonitorM.run_monitor thr st inputs).2 →
          (∃ t, e'.recovered_at = some t)
          ∧ (∃ d, e'.recovery_duration = some d ∧ 0 ≤ d)) := by
  induction inputs with
  | nil =>
    intro st t0 hinv htime hchain
    exact ⟨hinv, fun e' h => by cases h⟩
  | cons inp rest ih =>
    intro st t0 hinv htime hchain
    rw [List.map_cons] at hchain
    cases hchain with
    | cons h1 h2 =>
      have hstep := check_step_inv thr st inp hinv
        (fun e he => le_trans (htime e he) h1)
      have ihr := ih (SyncMonitorM.check_for_desync thr st inp).1 inp.time
        hstep.1 hstep.2.1 h2
      constructor
      · exact ihr.1
      · intro e' hmem
        simp only [SyncMonitorM.run_monitor, List.mem_cons] at hmem
        rcases hmem with h | h
        · obtain ⟨hra, hrd, hnn⟩ := hstep.2.2 e' h.symm
          exact ⟨⟨inp.time, hra⟩, ⟨inp.time - e'.detected_at, hrd, hnn⟩⟩
        · exact ihr.2 e' h

/-- C3: starting from the initial state and polling with nondecreasing
wall-clock times, every reachable state holds at most one active
`DesyncEvent` (the tracked event is the only member of the active list), and
every Desynced-to-Synced transition seals its event with a non-null recovery
timestamp and a non-negative duration. -/
theorem C3_single_active_incident (desync_threshold : Int)
    (inputs : List SyncMonitorM.CycleInput)
    (hmono : List.Chain' (· ≤ ·) (inputs.map SyncMonitorM.CycleInput.time)) :
    (((SyncMonitorM.run_monitor desync_threshold SyncMonitorM.initial_state
        inputs).1.active_desyncs.filter (fun e => e.is_active)).length ≤ 1)
    ∧ (∀ e, (SyncMonitorM.run_monitor desync_threshold SyncMonitorM.initial_state
          inputs).1.current_desync = some e →
        e ∈ (SyncMonitorM.run_monitor desync_threshold SyncMonitorM.initial_state
          inputs).1.active_desyncs)
    ∧ (∀ e', SyncMonitorM.StepOutput.recovered e'
          ∈ (SyncMonitorM.run_monitor desync_threshold SyncMonitorM.initial_state
              inputs).2 →
        e'.recovered_at ≠ none ∧ ∃ d, e'.recovery_duration = some d ∧ 0 ≤ d) := by
  have hinit : SyncMonitorM.StateInv SyncMonitorM.initial_state :=
    ⟨fun e he => (nomatch he), fun _ => rfl⟩
  have main :
      SyncMonitorM.StateInv (SyncMonitorM.run_monitor desync_threshold
        SyncMonitorM.initial_state inputs).1
      ∧ (∀ e', SyncMonitorM.StepOutput.recovered e'
            ∈ (SyncMonitorM.run_monitor desync_threshold
                SyncMonitorM.initial_state inputs).2 →
          (∃ t, e'.recovered_at = some t)
          ∧ (∃ d, e'.recovery_duration = some d ∧ 0 ≤ d)) := by
    cases inputs with
    | nil =>
      exact run_monitor_inv desync_threshold [] SyncMonitorM.initial_state 0 hinit
        (fun e he => by cases he) (by simp)
    | cons inp rest =>
      refine run_monitor_inv desync_threshold (inp :: rest)
        SyncMonitorM.initial_state inp.time hinit (fun e he => by cases he) ?_
      rw [List.map_cons]
      exact List.Chain.cons (le_refl _) (by simpa using hmono)
  obtain ⟨hinv, hrec⟩ := main
  refine ⟨?_, ?_, ?_⟩
  · cases hcur : (SyncMonitorM.run_monitor desync_threshold
        SyncMonitorM.initial_state inputs).1.current_desync with
    | none =>
      rw [hinv.2 hcur]
      simp
    | some e =>
      rw [(hinv.1 e hcur).1]
      exact le_trans (List.length_filter_le _ _) (by simp)
  · intro e hcur
    rw [(hinv.1 e hcur).1]
    simp
  · intro e' hmem
    obtain ⟨⟨t, ht⟩, hd⟩ := hrec e' hmem
    refine ⟨?_, hd⟩
    rw [ht]
    exact fun h => Option.noConfusion h

theorem C3_single_active_incident_witness :
    List.Chain' (· ≤ ·)
      (([⟨.okResult (.pstr "0x14"), 10, 1, 5⟩,
         ⟨.okResult (.pstr "0x14"), 19, 2, 5⟩] :
            List SyncMonitorM.CycleInput).map SyncMonitorM.CycleInput.time)
    ∧ (((SyncMonitorM.run_monitor 3 SyncMonitorM.initial_state
          [⟨.okResult (.pstr "0x14"), 10, 1, 5⟩,
           ⟨.okResult (.pstr "0x14"), 19, 2, 5⟩]).1.active_desyncs.filter
          (fun e => e.is_active)).length ≤ 1) := by
  have hchain : List.Chain' (· ≤ ·)
      (([⟨.okResult (.pstr "0x14"), 10, 1, 5⟩,
         ⟨.okResult (.pstr "0x14"), 19, 2, 5⟩] :
            List SyncMonitorM.CycleInput).map SyncMonitorM.CycleInput.time) := by
    simp only [List.map_cons, List.map_nil]
    exact List.Chain'.cons (by norm_num) (List.chain'_singleton _)
  exact ⟨hchain, (C3_single_active_incident 3 _ hchain).1⟩

theorem run_monitor_all_above (thr : Int) (rest : List SyncMonitorM.CycleInput) :
    ∀ (st : SyncMonitorM.MonitorState) (e : Models.DesyncEvent),
      st.current_desync = some e →
      (∀ j ∈ rest, ∃ c, SyncMonitorM.get_consensus_block_height j.fetch = some c
          ∧ thr ≤ c - j.current_block) →
      (SyncMonitorM.run_monitor thr st rest).2
          = List.replicate rest.length SyncMonitorM.StepOutput.updated
      ∧ (∀ e', (SyncMonitorM.run_monitor thr st rest).1.current_desync = some e' →
          e'.event_id = e.event_id) := by
  induction rest with
  | nil =>
    intro st e hcur hall
    refine ⟨rfl, ?_⟩
    intro e' he'
    have he2 : st.current_desync = some e' := he'
    rw [hcur] at he2
    injection he2 with h
    rw [← h]
  | cons j js ih =>
    intro st e hcur hall
    obtain ⟨c, hc, hth⟩ := hall j (List.mem_cons_self j js)
    have hstep := check_update_eq thr st e j c hcur hc hth
    obtain ⟨hout, hid⟩ := ih (SyncMonitorM.check_for_desync thr st j).1
      { e with blocks_behind := c - j.current_block
               network_block := c
               local_block := j.current_block }
      (by rw [hstep]) (fun i hi => hall i (List.mem_cons_of_mem j hi))
    constructor
    · show (SyncMonitorM.check_for_desync thr st j).2
          :: (SyncMonitorM.run_monitor thr
              (SyncMonitorM.check_for_desync thr st j).1 js).2
        = List.replicate (j :: js).length SyncMonitorM.StepOutput.updated
      rw [List.length_cons, List.replicate_succ, hout, congrArg Prod.snd hstep]
    · intro e' he'
      exact hid e' he'

/-- C4: over any run of cycles that all fetch a consensus height and stay at
or above the desync threshold, the first cycle emits the only detection and
every later cycle merely updates the same event in place: the outputs are
one `detected` followed by `updated`s (no second creation, no duplicate
emission), the tracked event keeps the first cycle's event id, and a single
above-threshold step rewrites exactly the blocks-behind, reference height
and local height of the existing event. -/
theorem C4_no_second_event (desync_threshold : Int)
    (st0 : SyncMonitorM.MonitorState) (h0 : st0.current_desync = none)
    (inp : SyncMonitorM.CycleInput) (rest : List SyncMonitorM.CycleInput)
    (hall : ∀ j ∈ inp :: rest, ∃ c,
        SyncMonitorM.get_consensus_block_height j.fetch = some c
        ∧ desync_threshold ≤ c - j.current_block) :
    (∃ e, (SyncMonitorM.run_monitor desync_threshold st0 (inp :: rest)).2
          = SyncMonitorM.StepOutput.detected e
              :: List.replicate rest.length SyncMonitorM.StepOutput.updated
        ∧ (∀ e', (SyncMonitorM.run_monitor desync_threshold st0
              (inp :: rest)).1.current_desync = some e' →
            e'.event_id = e.event_id))
    ∧ (∀ (st : SyncMonitorM.MonitorState) (e : Models.DesyncEvent)
          (j : SyncMonitorM.CycleInput) (c : Int),
        st.current_desync = some e →
        SyncMonitorM.get_consensus_block_height j.fetch = some c →
        desync_threshold ≤ c - j.current_block →
        (SyncMonitorM.check_for_desync desync_threshold st j).2
            = SyncMonitorM.StepOutput.updated
        ∧ (SyncMonitorM.check_for_desync desync_threshold st j).1.current_desync
            = some { e with blocks_behind := c - j.current_block
                            network_block := c
                            local_block := j.current_block }) := by
  constructor
  · obtain ⟨c, hc, hth⟩ := hall inp (List.mem_cons_self inp rest)
    have hdet := check_detection_eq desync_threshold st0 inp c h0 hc hth
    refine ⟨{ event_id := "desync_" ++ toString inp.time.floor
              detected_at := inp.time
              local_block := inp.current_block
              network_block := c
              blocks_behind := c - inp.current_block
              peer_count := inp.peer_count
              severity := SyncMonitorM.calculate_desync_severity
                (c - inp.current_block) }, ?_, ?_⟩
    all_goals
      have hcur2 : (SyncMonitorM.check_for_desync desync_threshold st0
          inp).1.current_desync
          = some { event_id := "desync_" ++ toString inp.time.floor
                   detected_at := inp.time
                   local_block := inp.current_block
                   network_block := c
                   blocks_behind := c - inp.current_block
                   peer_count := inp.peer_count
                   severity := SyncMonitorM.calculate_desync_severity
                     (c - inp.current_block) } := by rw [hdet]; rfl
    all_goals
      obtain ⟨hout, hid⟩ := run_monitor_all_above desync_threshold rest
        (SyncMonitorM.check_for_desync desync_threshold st0 inp).1 _ hcur2
        (fun i hi => hall i (List.mem_cons_of_mem inp hi))
    · show (SyncMonitorM.check_for_desync desync_threshold st0 inp).2
          :: (SyncMonitorM.run_monitor desync_threshold
              (SyncMonitorM.check_for_desync desync_threshold st0 inp).1 rest).2
        = _
      rw [hout, congrArg Prod.snd hdet]
      rfl
    · intro e' he'
      exact hid e' he'
  · intro st e j c hcur hc hth
    have h := check_update_eq desync_threshold st e j c hcur hc hth
    exact ⟨congrArg Prod.snd h, by rw [h]⟩

theorem C4_no_second_event_witness :
    (SyncMonitorM.check_for_desync 3
        ⟨some ⟨"desync_1", 1, 10, 20, 10, 5, none, none, none, "medium", []⟩,
         [⟨"desync_1", 1, 10, 20, 10, 5, none, none, none, "medium", []⟩]⟩
        ⟨.okResult (.pstr "0x14"), 15, 2, 7⟩).2 = SyncMonitorM.StepOutput.updated
    ∧ (SyncMonitorM.check_for_desync 3
        ⟨some ⟨"desync_1", 1, 10, 20, 10, 5, none, none, none, "medium", []⟩,
         [⟨"desync_1", 1, 10, 20, 10, 5, none, none, none, "medium", []⟩]⟩
        ⟨.okResult (.pstr "0x14"), 15, 2, 7⟩).1.current_desync
      = some ⟨"desync_1", 1, 15, 20, 5, 5, none, none, none, "medium", []⟩ := by
  have h := (C4_no_second_event 3 SyncMonitorM.initial_state rfl
      ⟨.okResult (.pstr "0x14"), 10, 1, 5⟩ [⟨.okResult (.pstr "0x14"), 15, 2, 7⟩]
      (by
        intro j hj
        rcases List.mem_cons.mp hj with h1 | h1
        · subst h1
          exact ⟨20, rfl, by decide⟩
        · rcases List.mem_cons.mp h1 with h2 | h2
          · subst h2
            exact ⟨20, rfl, by decide⟩
          · exact absurd h2 (List.not_mem_nil j))).2
      ⟨some ⟨"desync_1", 1, 10, 20, 10, 5, none, none, none, "medium", []⟩,
       [⟨"desync_1", 1, 10, 20, 10, 5, none, none, none, "medium", []⟩]⟩
      ⟨"desync_1", 1, 10, 20, 10, 5, none, none, none, "medium", []⟩
      ⟨.okResult (.pstr "0x14"), 15, 2, 7⟩ 20 rfl rfl (by decide)
  exact ⟨h.1, by rw [h.2]; rfl⟩
